import Mathlib

/-!
Verification of the task-queue orchestration repository: shallow embedding of
the Discord command bot (`bots/discord-cmd-bot/index.js`), the Discord
notifier shell script (`integrations/discord/notify_discord.sh`), and — where
the Python runner sources are absent from the repository snapshot — models of
the Scheduler and Worker built from the design documentation.
-/

set_option maxHeartbeats 1000000

/-! ## String primitives

Executable counterparts of the JavaScript string operations used by the
sources, phrased over `String.data` so the kernel can evaluate them. -/

/-- JS `String.prototype.toLowerCase` (ASCII range, as used by the bot). -/
def toLowerStr (s : String) : String := ⟨s.data.map Char.toLower⟩

/-- JS `String.prototype.trim`. -/
def trimStr (s : String) : String :=
  ⟨((s.data.dropWhile Char.isWhitespace).reverse.dropWhile Char.isWhitespace).reverse⟩

/-- Whether the first character of `s` is `c`; JS `startsWith` on a
one-character needle, and the shell glob `2*` of the notifier. -/
def startsWithChar (s : String) (c : Char) : Bool :=
  match s.data with
  | [] => false
  | x :: _ => x = c

/-- JS `String.prototype.includes` on a one-character needle. -/
def containsChar (s : String) (c : Char) : Bool := s.data.contains c

def splitOnCharAux (c : Char) : List Char → List Char → List (List Char)
  | [], acc => [acc.reverse]
  | x :: xs, acc =>
      if x = c then acc.reverse :: splitOnCharAux c xs []
      else splitOnCharAux c xs (x :: acc)

/-- JS `String.prototype.split` on a one-character separator. -/
def splitOnChar (c : Char) (s : String) : List String :=
  (splitOnCharAux c s.data []).map (fun l => ⟨l⟩)

/-- JS `Array.prototype.join`. -/
def joinWith (sep : String) : List String → String
  | [] => ""
  | [x] => x
  | x :: xs => x ++ sep ++ joinWith sep xs

/-! ## Discord command bot: `bots/discord-cmd-bot/index.js` -/

/-- `iconForTaskType` from `index.js` lines 53-60: a fixed emoji per task
type, with a gear as default. -/
def iconForTaskType (taskType : String) : String :=
  if taskType = "email_check" then "📧"
  else if taskType = "email_tasks_create" then "🧾"
  else if taskType = "posts_create" then "📝"
  else "⚙️"

/-- The `properties` (plus icon) of the Notion page-create payload built in
`index.js` lines 162-172. -/
structure NotionCreatePayload where
  icon : String
  name : String
  status : String
  type : String
  project : String
  requestedBy : String
deriving DecidableEq

/-- The payload object literal of `index.js` lines 162-172: `Status` is the
literal "queued" and `RequestedBy` the literal "discord"; the icon argument
flows only into the `icon` field. -/
def mkCreatePayload (icon name taskType project : String) : NotionCreatePayload :=
  { icon := icon
    name := name
    status := "queued"
    type := taskType
    project := project
    requestedBy := "discord" }

/-- The PATCH body of `index.js` lines 205-209 sets only the `Name` title. -/
def rewriteProps (t : NotionCreatePayload) (newTitle : String) : NotionCreatePayload :=
  { t with name := newTitle }

/-- Observable outcome of one `messageCreate` invocation: silent return,
a rejection reply (no store write), or a page-create request sent to the
store with the given payload. -/
inductive BotAction where
  | noReply : BotAction
  | reply (text : String) : BotAction
  | createTask (p : NotionCreatePayload) : BotAction
deriving DecidableEq

def helpMsg : String :=
  "Comandos válidos: `posts create <project>` | `email last <project>`"

def incompleteMsg : String := "❌ Comando incompleto. " ++ helpMsg

def invalidDomainMsg : String := "❌ Domínio inválido. " ++ helpMsg

def invalidActionMsg (domain : String) : String :=
  "❌ Ação inválida para " ++ domain ++ ". " ++ helpMsg

def missingProjectMsg : String := "❌ Falta o projeto. " ++ helpMsg

def notConfiguredMsg : String :=
  "❌ Notion não configurado (NOTION_API_KEY / NOTION_DB_ID)."

/-- `allowedDomains = new Set(["posts", "email"])`, `index.js` line 121. -/
def allowedDomain (d : String) : Bool := d = "posts" || d = "email"

/-- `allowedActions`, `index.js` lines 122-125; the JS guard is
`!action || !allowedActions[domain].has(action)`, and an empty action is
covered because it matches no set element. -/
def allowedAction (d a : String) : Bool :=
  if d = "posts" then a = "create"
  else if d = "email" then a = "last"
  else false

/-- `typeMap`, `index.js` lines 149-152. -/
def typeMap (d a : String) : Option String :=
  if d = "posts" && a = "create" then some "posts_create"
  else if d = "email" && a = "last" then some "email_check"
  else none

/-- The `messageCreate` handler of `index.js` lines 88-229, up to the point
where the create request is sent.  `parts` is the whitespace-tokenised
mention-stripped message content (nonempty tokens, as produced by
`split(/\s+/).filter(Boolean)`); `mentionsHas` and `patternMatches` are the
two mention tests of lines 99-101. -/
def handleMessage (authorBot mentionsHas patternMatches : Bool)
    (parts : List String) (notionToken notionDbId : String) : BotAction :=
  if authorBot then .noReply
  else if !(mentionsHas || patternMatches) then .noReply
  else if parts.isEmpty then .reply incompleteMsg
  else
    let domain := toLowerStr (parts.getD 0 "")
    let action := toLowerStr (parts.getD 1 "")
    let project := toLowerStr (parts.getD 2 "")
    if !(allowedDomain domain) then .reply invalidDomainMsg
    else if !(allowedAction domain action) then .reply (invalidActionMsg domain)
    else if project = "" then .reply missingProjectMsg
    else if notionToken = "" || notionDbId = "" then .reply notConfiguredMsg
    else
      match typeMap domain action with
      | none => .reply (invalidActionMsg domain)
      | some taskType =>
          .createTask (mkCreatePayload (iconForTaskType taskType)
            (domain ++ " " ++ action ++ " " ++ project) taskType project)

/-- Projection used to observe the `Project` field of a sent create request. -/
def createdProject : BotAction → Option String
  | .createTask p => some p.project
  | _ => none

/-! ## Title rewrite after creation (`index.js` lines 62-68 and 192-216) -/

/-- The `unique_id` value of a Notion page property, as read by
`getUniqueIdText`: `number` may be absent (`null`), and a missing or empty
`prefix` is falsy in JS, modelled as the empty string. -/
structure UniqueIdProp where
  number : Option Int
  pfx : String
deriving DecidableEq

/-- `getUniqueIdText`, `index.js` lines 62-68, applied to the page's `ID`
property (`none` when the property or its `unique_id` is absent). -/
def getUniqueIdText (u : Option UniqueIdProp) : String :=
  match u with
  | none => ""
  | some x =>
      match x.number with
      | none => ""
      | some n => if x.pfx = "" then toString n else x.pfx ++ "-" ++ toString n

/-- The rewritten title of `index.js` line 196:
icon, `#` ticket, day/month, `-`, task type and project. -/
def mkTitle (icon ticket dayMonth taskType project : String) : String :=
  icon ++ " #" ++ ticket ++ " " ++ dayMonth ++ " - " ++ taskType ++ " " ++ project

/-- What the bot reports and what the task's `Name` is after the
post-creation steps of `index.js` lines 192-216. -/
structure CreateFollowup where
  finalName : String
  reportedSuccess : Bool
deriving DecidableEq

/-- `index.js` lines 192-216: after a successful create, the ticket text is
read from the returned page; only when it is nonempty is a PATCH issued that
rewrites the `Name`, inside its own try/catch, and the success reply of line
216 is sent in every case. `rewriteThrows` models the PATCH `fetch`
throwing. -/
def afterCreateSuccess (createdName : String) (uid : Option UniqueIdProp)
    (icon dayMonth taskType project : String) (rewriteThrows : Bool) : CreateFollowup :=
  let ticket := getUniqueIdText uid
  if ticket = "" then { finalName := createdName, reportedSuccess := true }
  else if rewriteThrows then { finalName := createdName, reportedSuccess := true }
  else { finalName := mkTitle icon ticket dayMonth taskType project
         reportedSuccess := true }

/-! ## Error notification: `sendErrorToDiscord` (`index.js` lines 70-80) -/

/-- Outcome of `client.channels.fetch` plus the subsequent send, as seen by
`sendErrorToDiscord`: the fetch can throw, return a null or non-text-based
channel, or return a usable channel whose `send` may itself throw. -/
inductive FetchOutcome where
  | fetchThrows : FetchOutcome
  | nullChannel : FetchOutcome
  | notTextBased : FetchOutcome
  | usable (sendThrows : Bool) : FetchOutcome
deriving DecidableEq

/-- How one call of `sendErrorToDiscord` ends; every constructor is a normal
return. -/
inductive SendOutcome where
  | skippedNoChannel : SendOutcome
  | skippedBadChannel : SendOutcome
  | sent : SendOutcome
  | caughtLogged : SendOutcome
deriving DecidableEq

/-- The body of `sendErrorToDiscord` with its try/catch removed: the fetch
and the send propagate their exceptions (`Except.error`). -/
def sendErrorRaw (logChannelId : String) (f : FetchOutcome) : Except String SendOutcome :=
  if logChannelId = "" then .ok .skippedNoChannel
  else
    match f with
    | .fetchThrows => .error "fetch failed"
    | .nullChannel => .ok .skippedBadChannel
    | .notTextBased => .ok .skippedBadChannel
    | .usable true => .error "send failed"
    | .usable false => .ok .sent

/-- `sendErrorToDiscord`, `index.js` lines 70-80: the try/catch turns every
exception into a logged normal return. -/
def sendErrorToDiscord (logChannelId : String) (f : FetchOutcome) : SendOutcome :=
  match sendErrorRaw logChannelId f with
  | .ok o => o
  | .error _ => .caughtLogged

/-- A caller that notifies and then continues with result `k`, as the
`messageCreate` handler does around each `sendErrorToDiscord` call. -/
def afterNotify (logChannelId : String) (f : FetchOutcome) (k : Nat) : Nat :=
  let _ := sendErrorToDiscord logChannelId f
  k

/-! ## Environment loading: `loadEnv` (`index.js` lines 5-14) -/

/-- `process.env`, newest binding first. -/
def EnvMap := List (String × String)

/-- Reading `process.env[k]`: the most recent binding for `k`, if any. -/
def envGet (e : EnvMap) (k : String) : Option String :=
  (List.find? (fun kv => kv.1 == k) e).map (fun kv => kv.2)

/-- JS truthiness of `process.env[k]`: both an absent key and a key bound to
the empty string are falsy. -/
def envTruthy (e : EnvMap) (k : String) : Bool :=
  match envGet e k with
  | none => false
  | some v => !(v == "")

/-- Writing `process.env[k] = v`. -/
def envSet (e : EnvMap) (k v : String) : EnvMap := (k, v) :: e

/-- One iteration of the `loadEnv` loop, `index.js` lines 8-13: trim the
line; skip it when blank, a `#` comment, or without `=`; otherwise split on
`=`, rejoin the tail, and assign only when `process.env[k]` is falsy. -/
def processEnvLine (e : EnvMap) (line : String) : EnvMap :=
  let s := trimStr line
  if s = "" then e
  else if startsWithChar s '#' then e
  else if !(containsChar s '=') then e
  else
    let pieces := splitOnChar '=' s
    let k := pieces.headD ""
    let v := trimStr (joinWith "=" pieces.tail)
    if envTruthy e k then e else envSet e k v

/-- `loadEnv`, `index.js` lines 5-14: a missing file is a no-op; otherwise
the file's lines are folded over `processEnvLine`. -/
def loadEnv (fileExists : Bool) (lines : List String) (e : EnvMap) : EnvMap :=
  if fileExists then lines.foldl processEnvLine e else e

/-! ## Notifier: `integrations/discord/notify_discord.sh` -/

/-- What one run of the notifier script did: how many HTTP deliveries were
attempted and the script's exit code. -/
structure NotifyResult where
  attempts : Nat
  exitCode : Nat
deriving DecidableEq

/-- `notify_discord.sh`: missing env file or missing `CHANNEL_ID` exit 1
before any network call; a nonempty `DISCORD_TOKEN` selects the bot-token
`curl` (lines 32-50), otherwise a nonempty `DISCORD_WEBHOOK_URL` selects the
webhook `curl` (lines 52-71); each path performs exactly one `curl` and
exits 1 immediately when the HTTP code does not match the glob `2*`. -/
def notifyDiscord (envFileExists : Bool) (discordToken webhookUrl channelId httpCode : String) :
    NotifyResult :=
  if !envFileExists then { attempts := 0, exitCode := 1 }
  else if channelId = "" then { attempts := 0, exitCode := 1 }
  else if !(discordToken = "") then
    if startsWithChar httpCode '2' then { attempts := 1, exitCode := 0 }
    else { attempts := 1, exitCode := 1 }
  else if webhookUrl = "" then { attempts := 0, exitCode := 1 }
  else if startsWithChar httpCode '2' then { attempts := 1, exitCode := 0 }
  else { attempts := 1, exitCode := 1 }

/-! ## Scheduler

The scheduler source (`runner/notion_scheduler.py`) is referenced by
`docs/NOTION_FLOW.md` but is not part of the repository snapshot; the model
below follows the design documentation (§4.3 of the spec and the NOTION_FLOW
"Observacoes"). -/

/-- Modelled from the spec: a Recurring Schedule Entry (§3) as consumed by
the missing `runner/notion_scheduler.py` — a `type` and a `project` with a
per-period cadence. -/
structure ScheduleEntry where
  type : String
  project : String
deriving DecidableEq

/-- Modelled from the spec: the store-visible fields of a task that the
scheduler dedup consults, with `period` the index of the period window in
which the task was created. -/
structure STask where
  type : String
  project : String
  requestedBy : String
  status : String
  period : Nat
deriving DecidableEq

/-- Modelled from the spec: the dedup predicate of §4.3 step 2 — a task of
the same `type`+`project`, created by `requested_by = system`, within the
period window `p`. -/
def isPeriodSystemTask (ty pr : String) (p : Nat) (t : STask) : Bool :=
  t.type == ty && t.project == pr && t.requestedBy == "system" && t.period == p

/-- Modelled from the spec: §4.3 step 3 — the task the scheduler creates,
queued and `requested_by = system`. -/
def mkSystemTask (e : ScheduleEntry) (p : Nat) : STask :=
  { type := e.type, project := e.project, requestedBy := "system"
    status := "queued", period := p }

/-- Modelled from the spec: §4.3 step 2 — does a task for this entry and
period already exist? -/
def dueExists (store : List STask) (e : ScheduleEntry) (p : Nat) : Bool :=
  store.any (isPeriodSystemTask e.type e.project p)

/-- Modelled from the spec: §4.3 step 3 — create unless the dedup query
found a match. -/
def schedulerStep (store : List STask) (e : ScheduleEntry) (p : Nat) : List STask :=
  if dueExists store e p then store else mkSystemTask e p :: store

/-- Modelled from the spec: one scheduler invocation in period `p` (§4.3
steps 1-4), processing every schedule entry. -/
def runScheduler (store : List STask) (entries : List ScheduleEntry) (p : Nat) : List STask :=
  entries.foldl (fun s e => schedulerStep s e p) store

/-- Number of system-requested tasks for `type`+`project` in period `p`. -/
def countSystem (store : List STask) (ty pr : String) (p : Nat) : Nat :=
  (store.filter (isPeriodSystemTask ty pr p)).length

/-! ## Worker claim/finish

The worker source (`runner/notion_worker.py`) is likewise absent from the
snapshot; the model follows §4.4 of the spec and the NOTION_SCHEMA
"Observacoes" (claim sets `Status=running`, `StartedAt=now`, `RunCount++`;
finish sets `done`/`failed` and `FinishedAt`). -/

/-- Modelled from the spec: the worker-visible mutable fields of a task. -/
structure WTask where
  status : String
  runCount : Nat
  startedAt : Option Nat
  finishedAt : Option Nat
  lastError : String
  result : String
deriving DecidableEq

/-- Modelled from the spec: §4.4 step 2 — the claim update
`{status: running, started_at: now, run_count: run_count+1}`. -/
def claimTask (t : WTask) (now : Nat) : WTask :=
  { t with status := "running", startedAt := some now, runCount := t.runCount + 1 }

/-- Modelled from the spec: §4.4 steps 4-5 — the finish update, `done` with
`result` on exit code 0, `failed` with `last_error` otherwise. -/
def finishTask (t : WTask) (fin : Nat) (exitOk : Bool) (output errMsg : String) : WTask :=
  if exitOk then { t with status := "done", finishedAt := some fin, result := output }
  else { t with status := "failed", finishedAt := some fin, lastError := errMsg }

/-- Modelled from the spec: the sequence of store states of one task during
one worker invocation — the worker only touches tasks listed with
`status = queued` (§4.4 step 1), and such a task is first claimed and then
finished. -/
def workerStates (t : WTask) (now fin : Nat) (exitOk : Bool) (output errMsg : String) :
    List WTask :=
  if t.status = "queued" then
    let c := claimTask t now
    [t, c, finishTask c fin exitOk output errMsg]
  else [t]

/-- The legal status transitions of the spec's §3 invariant. -/
def okTransition (a b : String) : Bool :=
  (a == "queued" && b == "running") || (a == "running" && (b == "done" || b == "failed"))

/-! ## Helper lemmas -/

theorem envGet_envSet_ne (e : EnvMap) (k' v k : String) (h : (k' == k) = false) :
    envGet (envSet e k' v) k = envGet e k := by
  simp [envGet, envSet, List.find?, h]

theorem processEnvLine_preserves (e : EnvMap) (line k : String)
    (h : envTruthy e k = true) :
    envGet (processEnvLine e line) k = envGet e k := by
  unfold processEnvLine
  dsimp only
  split_ifs with h1 h2 h3 h4
  · rfl
  · rfl
  · rfl
  · rfl
  · apply envGet_envSet_ne
    by_cases hk : (splitOnChar '=' (trimStr line)).headD "" = k
    · rw [hk] at h4
      exact absurd h h4
    · exact beq_false_of_ne hk

theorem foldl_processEnvLine_preserves (lines : List String) :
    ∀ (e : EnvMap) (k : String), envTruthy e k = true →
      envGet (lines.foldl processEnvLine e) k = envGet e k := by
  induction lines with
  | nil => intro e k _; rfl
  | cons l rest ih =>
      intro e k h
      have h1 := processEnvLine_preserves e l k h
      have h2 : envTruthy (processEnvLine e l) k = true := by
        unfold envTruthy at h ⊢
        rw [h1]
        exact h
      rw [List.foldl_cons, ih _ _ h2, h1]

theorem countSystem_cons (t : STask) (s : List STask) (ty pr : String) (p : Nat) :
    countSystem (t :: s) ty pr p =
      (if isPeriodSystemTask ty pr p t then 1 else 0) + countSystem s ty pr p := by
  unfold countSystem
  rw [List.filter_cons]
  split_ifs <;> simp [Nat.add_comm]

theorem dueExists_false_count (s : List STask) (e : ScheduleEntry) (p : Nat)
    (h : dueExists s e p = false) : countSystem s e.type e.project p = 0 := by
  induction s with
  | nil => rfl
  | cons t rest ih =>
      unfold dueExists at h
      rw [List.any_cons] at h
      rw [countSystem_cons]
      rcases Bool.or_eq_false_iff.mp h with ⟨h1, h2⟩
      rw [h1]
      simpa using ih h2

theorem dueExists_true_count (s : List STask) (e : ScheduleEntry) (p : Nat)
    (h : dueExists s e p = true) : 0 < countSystem s e.type e.project p := by
  induction s with
  | nil => simp [dueExists] at h
  | cons t rest ih =>
      unfold dueExists at h
      rw [List.any_cons] at h
      rw [countSystem_cons]
      rcases Bool.or_eq_true_iff.mp h with h1 | h2
      · rw [h1, if_pos rfl]
        omega
      · have := ih h2
        omega

theorem isPeriodSystemTask_mkSystemTask (e : ScheduleEntry) (ty pr : String) (p : Nat) :
    isPeriodSystemTask ty pr p (mkSystemTask e p) = (e.type == ty && e.project == pr) := by
  simp [isPeriodSystemTask, mkSystemTask]

theorem countSystem_schedulerStep (s : List STask) (e : ScheduleEntry) (ty pr : String) (p : Nat) :
    countSystem (schedulerStep s e p) ty pr p =
      if e.type = ty ∧ e.project = pr ∧ countSystem s ty pr p = 0
      then 1 else countSystem s ty pr p := by
  unfold schedulerStep
  by_cases hd : dueExists s e p = true
  · rw [if_pos hd]
    have hpos := dueExists_true_count s e p hd
    rw [if_neg]
    rintro ⟨h1, h2, h3⟩
    rw [h1, h2] at hpos
    omega
  · have hd' : dueExists s e p = false := by
      cases heq : dueExists s e p
      · rfl
      · exact absurd heq hd
    rw [if_neg (by simp [hd'])]
    rw [countSystem_cons, isPeriodSystemTask_mkSystemTask]
    have hzero := dueExists_false_count s e p hd'
    by_cases h1 : e.type = ty <;> by_cases h2 : e.project = pr
    · rw [h1, h2] at hzero
      simp [h1, h2, hzero]
    · simp [h1, h2]
    · simp [h1, h2]
    · simp [h1, h2]

theorem countSystem_runScheduler (entries : List ScheduleEntry) (s : List STask)
    (ty pr : String) (p : Nat) :
    countSystem (runScheduler s entries p) ty pr p =
      if (entries.any fun e => e.type == ty && e.project == pr) = true
          ∧ countSystem s ty pr p = 0
      then 1 else countSystem s ty pr p := by
  induction entries generalizing s with
  | nil => simp [runScheduler]
  | cons e rest ih =>
      unfold runScheduler at ih ⊢
      rw [List.foldl_cons, ih (schedulerStep s e p), countSystem_schedulerStep]
      rw [List.any_cons]
      by_cases h1 : e.type = ty <;> by_cases h2 : e.project = pr <;>
        by_cases h3 : countSystem s ty pr p = 0 <;>
        by_cases h4 : (rest.any fun x => x.type == ty && x.project == pr) = true <;>
        simp [h1, h2, h3, h4]

/-! ## Claim theorems -/

/-- C1: for a recurring schedule entry, invoking the Scheduler twice within
the same period window creates exactly one `requested_by = system` task for
the entry's `type`+`project` (the second invocation skips creation), and
system tasks created in previous periods — which the hypothesis permits in
the store — never suppress creation in the current period. -/
theorem scheduler_twice_one_system_task (store : List STask) (entries : List ScheduleEntry)
    (e : ScheduleEntry) (p : Nat)
    (he : e ∈ entries)
    (hcur : ∀ t ∈ store, isPeriodSystemTask e.type e.project p t = false) :
    countSystem (runScheduler store entries p) e.type e.project p = 1
  ∧ countSystem (runScheduler (runScheduler store entries p) entries p) e.type e.project p
      = 1 := by
  have hzero : countSystem store e.type e.project p = 0 := by
    unfold countSystem
    rw [List.length_eq_zero]
    rw [List.filter_eq_nil_iff]
    intro t ht
    simp [hcur t ht]
  have hany : (entries.any fun x => x.type == e.type && x.project == e.project) = true := by
    rw [List.any_eq_true]
    exact ⟨e, he, by simp⟩
  have hone : countSystem (runScheduler store entries p) e.type e.project p = 1 := by
    rw [countSystem_runScheduler]
    rw [if_pos ⟨hany, hzero⟩]
  refine ⟨hone, ?_⟩
  rw [countSystem_runScheduler]
  rw [if_neg (by simp [hone])]
  exact hone

/-- Witness for C1: a store holding a system task from a previous period (4)
and a manual task from the current period (5); two scheduler runs in period
5 still yield exactly one system task for period 5. -/
theorem scheduler_twice_one_system_task_witness :
    (ScheduleEntry.mk "posts_create" "acme") ∈ [ScheduleEntry.mk "posts_create" "acme"]
  ∧ (∀ t ∈ [STask.mk "posts_create" "acme" "system" "done" 4,
            STask.mk "posts_create" "acme" "manual" "queued" 5],
       isPeriodSystemTask "posts_create" "acme" 5 t = false)
  ∧ countSystem
      (runScheduler
        (runScheduler
          [STask.mk "posts_create" "acme" "system" "done" 4,
           STask.mk "posts_create" "acme" "manual" "queued" 5]
          [ScheduleEntry.mk "posts_create" "acme"] 5)
        [ScheduleEntry.mk "posts_create" "acme"] 5)
      "posts_create" "acme" 5 = 1 := by
  refine ⟨by decide, by decide, ?_⟩
  exact (scheduler_twice_one_system_task
    [STask.mk "posts_create" "acme" "system" "done" 4,
     STask.mk "posts_create" "acme" "manual" "queued" 5]
    [ScheduleEntry.mk "posts_create" "acme"]
    (ScheduleEntry.mk "posts_create" "acme") 5 (by decide) (by decide)).2

/-- C2: a task claimed by the Worker has its `run_count` incremented by
exactly 1, and the observed status sequence is
`queued`, `running`, then `done` or `failed` — every adjacent transition is
legal, so a task never jumps from `queued` directly to `done`/`failed`. -/
theorem worker_claim_increments_and_no_skip (t : WTask) (now fin : Nat) (exitOk : Bool)
    (output errMsg : String) (hq : t.status = "queued") :
    (claimTask t now).runCount = t.runCount + 1
  ∧ (workerStates t now fin exitOk output errMsg).map WTask.status
      = ["queued", "running", if exitOk then "done" else "failed"]
  ∧ List.Chain' (fun a b => okTransition a.status b.status = true)
      (workerStates t now fin exitOk output errMsg) := by
  refine ⟨rfl, ?_, ?_⟩
  · cases exitOk <;> simp [workerStates, claimTask, finishTask, hq]
  · cases exitOk <;>
      simp [workerStates, claimTask, finishTask, hq, okTransition, List.chain'_cons]

/-- Witness for C2: a concrete queued task with `run_count = 0` is claimed
and ends with `run_count = 1`. -/
theorem worker_claim_increments_and_no_skip_witness :
    (WTask.mk "queued" 0 none none "" "").status = "queued"
  ∧ (claimTask (WTask.mk "queued" 0 none none "" "") 10).runCount = 1 := by
  refine ⟨rfl, ?_⟩
  exact (worker_claim_increments_and_no_skip (WTask.mk "queued" 0 none none "" "")
    10 20 true "out" "" rfl).1

/-- C3: for a message addressed to the bot, an invalid domain, an invalid
action for a valid domain, and a missing project each make the handler end
in `BotAction.reply` — a rejection without any store write — with three
pairwise distinct reply texts. -/
theorem bot_rejections_distinct_no_write (mentionsHas patternMatches : Bool)
    (parts : List String) (tok db : String)
    (hm : (mentionsHas || patternMatches) = true) (hne : parts ≠ []) :
    (allowedDomain (toLowerStr (parts.getD 0 "")) = false →
       handleMessage false mentionsHas patternMatches parts tok db = .reply invalidDomainMsg)
  ∧ (allowedDomain (toLowerStr (parts.getD 0 "")) = true →
     allowedAction (toLowerStr (parts.getD 0 "")) (toLowerStr (parts.getD 1 "")) = false →
       handleMessage false mentionsHas patternMatches parts tok db
         = .reply (invalidActionMsg (toLowerStr (parts.getD 0 ""))))
  ∧ (allowedDomain (toLowerStr (parts.getD 0 "")) = true →
     allowedAction (toLowerStr (parts.getD 0 "")) (toLowerStr (parts.getD 1 "")) = true →
     toLowerStr (parts.getD 2 "") = "" →
       handleMessage false mentionsHas patternMatches parts tok db = .reply missingProjectMsg)
  ∧ (invalidDomainMsg ≠ invalidActionMsg "posts" ∧ invalidDomainMsg ≠ invalidActionMsg "email"
     ∧ invalidDomainMsg ≠ missingProjectMsg ∧ invalidActionMsg "posts" ≠ missingProjectMsg
     ∧ invalidActionMsg "email" ≠ missingProjectMsg
     ∧ invalidActionMsg "posts" ≠ invalidActionMsg "email") := by
  have hie : parts.isEmpty = false := by
    cases parts with
    | nil => exact absurd rfl hne
    | cons a l => rfl
  refine ⟨?_, ?_, ?_, by decide, by decide, by decide, by decide, by decide, by decide⟩
  · intro h1
    simp only [List.getD_eq_getElem?_getD] at h1
    simp [handleMessage, hm, hie, h1]
  · intro h1 h2
    simp only [List.getD_eq_getElem?_getD] at h1 h2
    simp [handleMessage, hm, hie, h1, h2]
  · intro h1 h2 h3
    simp only [List.getD_eq_getElem?_getD] at h1 h2 h3
    simp [handleMessage, hm, hie, h1, h2, h3]

/-- Witness for C3: the unknown domain `foo` is rejected with the
invalid-domain reply and no create request. -/
theorem bot_rejections_distinct_no_write_witness :
    allowedDomain (toLowerStr (["foo"].getD 0 "")) = false
  ∧ handleMessage false true false ["foo"] "t" "d" = .reply invalidDomainMsg := by
  refine ⟨by decide, ?_⟩
  exact (bot_rejections_distinct_no_write true false ["foo"] "t" "d" rfl (by decide)).1
    (by decide)

/-- C4 counterexample: the command `posts create ACME` is accepted but the
created task's `Project` is the lowercased `acme`, not the given token
`ACME` — refuting the claim that `Project` equals the given project token. -/
theorem bot_project_not_given_token_cex :
    createdProject (handleMessage false true false ["posts", "create", "ACME"] "tok" "db")
      = some "acme"
  ∧ ("acme" : String) ≠ "ACME" := by
  exact ⟨by decide, by decide⟩

/-- C4 (amended): for every accepted command the created task has `Status`
queued, `RequestedBy` discord, `Project` equal to the lowercased project
token, and `Type` per the fixed table (`posts create` to `posts_create`,
`email last` to `email_check`). -/
theorem bot_accepted_payload_fields (mh pm : Bool) (d a p : String) (rest : List String)
    (tok db : String) (hm : (mh || pm) = true) (hp : toLowerStr p ≠ "")
    (htok : tok ≠ "") (hdb : db ≠ "") :
    (toLowerStr d = "posts" → toLowerStr a = "create" →
       handleMessage false mh pm (d :: a :: p :: rest) tok db
         = .createTask { icon := "📝", name := "posts create " ++ toLowerStr p
                         status := "queued", type := "posts_create"
                         project := toLowerStr p, requestedBy := "discord" })
  ∧ (toLowerStr d = "email" → toLowerStr a = "last" →
       handleMessage false mh pm (d :: a :: p :: rest) tok db
         = .createTask { icon := "📧", name := "email last " ++ toLowerStr p
                         status := "queued", type := "email_check"
                         project := toLowerStr p, requestedBy := "discord" }) := by
  constructor
  · intro hd ha
    simp [handleMessage, hm, hd, ha, allowedDomain, allowedAction, typeMap,
      mkCreatePayload, iconForTaskType, htok, hdb, hp]
  · intro hd ha
    simp [handleMessage, hm, hd, ha, allowedDomain, allowedAction, typeMap,
      mkCreatePayload, iconForTaskType, htok, hdb, hp]

/-- Witness for C4: `posts create ACME` yields a queued, discord-requested
`posts_create` task for project `acme`. -/
theorem bot_accepted_payload_fields_witness :
    toLowerStr "ACME" ≠ ""
  ∧ handleMessage false true false ["posts", "create", "ACME"] "tok" "db"
      = .createTask { icon := "📝", name := "posts create acme", status := "queued"
                      type := "posts_create", project := "acme", requestedBy := "discord" } := by
  refine ⟨by decide, ?_⟩
  have h := (bot_accepted_payload_fields true false "posts" "create" "ACME" [] "tok" "db"
    rfl (by decide) (by decide) (by decide)).1 (by decide) (by decide)
  simpa using h

/-- C5: after a successful create, the bot always reports success; the name
is rewritten only when the store returned a nonempty unique-id text, the
rewritten title carries icon, ticket, date, type and project, and when no id
is present — or the rewrite itself throws — the name stays as created while
success is still reported. -/
theorem title_rewrite_only_with_id (createdName : String) (uid : Option UniqueIdProp)
    (icon dayMonth taskType project : String) (rewriteThrows : Bool) :
    (afterCreateSuccess createdName uid icon dayMonth taskType project rewriteThrows).reportedSuccess
      = true
  ∧ ((afterCreateSuccess createdName uid icon dayMonth taskType project rewriteThrows).finalName
       ≠ createdName → getUniqueIdText uid ≠ "")
  ∧ (getUniqueIdText uid = "" →
      (afterCreateSuccess createdName uid icon dayMonth taskType project rewriteThrows).finalName
        = createdName)
  ∧ (getUniqueIdText uid ≠ "" → rewriteThrows = false →
      (afterCreateSuccess createdName uid icon dayMonth taskType project rewriteThrows).finalName
        = mkTitle icon (getUniqueIdText uid) dayMonth taskType project) := by
  unfold afterCreateSuccess
  by_cases ht : getUniqueIdText uid = "" <;> cases rewriteThrows <;> simp [ht]

/-- Witness for C5: a page with unique id `TASK-7` gets its name rewritten
to the full ticket title. -/
theorem title_rewrite_only_with_id_witness :
    getUniqueIdText (some { number := some 7, pfx := "TASK" }) ≠ ""
  ∧ (afterCreateSuccess "posts create acme" (some { number := some 7, pfx := "TASK" })
       "📝" "05/10" "posts_create" "acme" false).finalName
      = mkTitle "📝" (getUniqueIdText (some { number := some 7, pfx := "TASK" }))
          "05/10" "posts_create" "acme" := by
  refine ⟨by decide, ?_⟩
  exact (title_rewrite_only_with_id "posts create acme"
    (some { number := some 7, pfx := "TASK" }) "📝" "05/10" "posts_create" "acme"
    false).2.2.2 (by decide) rfl

/-- C6: the icon lookup returns a nonempty emoji for every string — the
mapped emoji for the three known types and the gear for every other string —
and the icon never influences the `Status`, `Type`, `Project` or
`RequestedBy` fields of the create payload, nor does the title rewrite. -/
theorem icon_table_display_only (t i1 i2 n ty pr newTitle : String) :
    iconForTaskType t ≠ ""
  ∧ iconForTaskType "email_check" = "📧"
  ∧ iconForTaskType "email_tasks_create" = "🧾"
  ∧ iconForTaskType "posts_create" = "📝"
  ∧ (t ≠ "email_check" → t ≠ "email_tasks_create" → t ≠ "posts_create" →
       iconForTaskType t = "⚙️")
  ∧ ((mkCreatePayload i1 n ty pr).status = (mkCreatePayload i2 n ty pr).status
     ∧ (mkCreatePayload i1 n ty pr).type = (mkCreatePayload i2 n ty pr).type
     ∧ (mkCreatePayload i1 n ty pr).project = (mkCreatePayload i2 n ty pr).project
     ∧ (mkCreatePayload i1 n ty pr).requestedBy = (mkCreatePayload i2 n ty pr).requestedBy)
  ∧ ((rewriteProps (mkCreatePayload i1 n ty pr) newTitle).status = "queued"
     ∧ (rewriteProps (mkCreatePayload i1 n ty pr) newTitle).type = ty
     ∧ (rewriteProps (mkCreatePayload i1 n ty pr) newTitle).project = pr
     ∧ (rewriteProps (mkCreatePayload i1 n ty pr) newTitle).requestedBy = "discord") := by
  refine ⟨?_, by decide, by decide, by decide, ?_, ⟨rfl, rfl, rfl, rfl⟩, ⟨rfl, rfl, rfl, rfl⟩⟩
  · unfold iconForTaskType
    split_ifs <;> decide
  · intro h1 h2 h3
    simp [iconForTaskType, h1, h2, h3]

/-- Witness for C6: an unknown type gets the default gear icon. -/
theorem icon_table_display_only_witness :
    ("lesson_create" : String) ≠ "email_check"
  ∧ iconForTaskType "lesson_create" = "⚙️" := by
  refine ⟨by decide, ?_⟩
  exact (icon_table_display_only "lesson_create" "a" "b" "n" "ty" "pr" "nt").2.2.2.2.1
    (by decide) (by decide) (by decide)

/-- C7: one notifier invocation makes at most one HTTP delivery attempt,
exactly one when the env file and a destination plus either credential are
present, and on a non-2xx response the script exits with code 1 having made
only that single attempt — no retry. -/
theorem notifier_single_attempt (fe : Bool) (tokn wh cid code : String) :
    (notifyDiscord fe tokn wh cid code).attempts ≤ 1
  ∧ (fe = true → cid ≠ "" → (tokn ≠ "" ∨ wh ≠ "") →
      (notifyDiscord fe tokn wh cid code).attempts = 1)
  ∧ (startsWithChar code '2' = false →
      (notifyDiscord fe tokn wh cid code).attempts = 1 →
      (notifyDiscord fe tokn wh cid code).exitCode = 1) := by
  unfold notifyDiscord
  refine ⟨?_, ?_, ?_⟩
  · split_ifs <;> simp
  · intro h1 h2 h3
    split_ifs <;> simp_all
  · intro h1 h2
    split_ifs at * <;> simp_all

/-- Witness for C7: with a bot token configured and an HTTP 404 response,
exactly one attempt is made and the script exits 1. -/
theorem notifier_single_attempt_witness :
    ("T" : String) ≠ "" ∧ startsWithChar "404" '2' = false
  ∧ (notifyDiscord true "T" "" "123" "404").attempts = 1
  ∧ (notifyDiscord true "T" "" "123" "404").exitCode = 1 := by
  refine ⟨by decide, by decide, ?_, ?_⟩
  · exact (notifier_single_attempt true "T" "" "123" "404").2.1 rfl (by decide)
      (Or.inl (by decide))
  · exact (notifier_single_attempt true "T" "" "123" "404").2.2 (by decide)
      ((notifier_single_attempt true "T" "" "123" "404").2.1 rfl (by decide)
        (Or.inl (by decide)))

/-- C8: `sendErrorToDiscord` returns normally in every case — unset log
channel, fetch failure, bad channel, or a throwing send all map to a normal
`SendOutcome` — so the caller's continuation value is unchanged regardless
of the notification outcome. -/
theorem notify_failure_not_escalated (cid : String) (f : FetchOutcome) (k : Nat) :
    (∀ e, sendErrorRaw cid f = .error e → sendErrorToDiscord cid f = .caughtLogged)
  ∧ afterNotify cid f k = k
  ∧ (cid = "" → sendErrorToDiscord cid f = .skippedNoChannel)
  ∧ (cid ≠ "" → sendErrorToDiscord cid .fetchThrows = .caughtLogged)
  ∧ (cid ≠ "" → sendErrorToDiscord cid (.usable true) = .caughtLogged) := by
  refine ⟨?_, rfl, ?_, ?_, ?_⟩
  · intro e he
    unfold sendErrorToDiscord
    rw [he]
  · intro h
    simp [sendErrorToDiscord, sendErrorRaw, h]
  · intro h
    simp [sendErrorToDiscord, sendErrorRaw, h]
  · intro h
    simp [sendErrorToDiscord, sendErrorRaw, h]

/-- Witness for C8: a throwing fetch is caught and the caller's value 42 is
returned untouched. -/
theorem notify_failure_not_escalated_witness :
    ("log123" : String) ≠ ""
  ∧ sendErrorToDiscord "log123" .fetchThrows = .caughtLogged
  ∧ afterNotify "log123" (.usable true) 42 = 42 := by
  refine ⟨by decide, ?_, ?_⟩
  · exact (notify_failure_not_escalated "log123" .fetchThrows 0).2.2.2.1 (by decide)
  · exact (notify_failure_not_escalated "log123" (.usable true) 42).2.1

/-- C9 counterexample: a key present in the environment with the empty
string as value is overwritten by `loadEnv` — refuting the claim that every
already-set variable keeps its value. -/
theorem loadEnv_overwrites_empty_cex :
    envGet ([("KEY", "")] : EnvMap) "KEY" = some ""
  ∧ envGet (loadEnv true ["KEY=x"] [("KEY", "")]) "KEY" = some "x"
  ∧ (some "x" : Option String) ≠ some "" := by
  exact ⟨by decide, by decide, by decide⟩

/-- C9 (amended): `loadEnv` never overwrites an environment variable set to
a nonempty value (JS-truthy); blank lines, `#` comments and lines without
`=` are ignored; and a missing file leaves the environment unchanged. -/
theorem loadEnv_preserves_nonempty :
    (∀ (lines : List String) (e : EnvMap) (k : String), envTruthy e k = true →
        envGet (loadEnv true lines e) k = envGet e k)
  ∧ (∀ (e : EnvMap) (line : String),
        (trimStr line = "" ∨ startsWithChar (trimStr line) '#' = true
          ∨ containsChar (trimStr line) '=' = false) →
        processEnvLine e line = e)
  ∧ (∀ (lines : List String) (e : EnvMap), loadEnv false lines e = e) := by
  refine ⟨?_, ?_, ?_⟩
  · intro lines e k h
    unfold loadEnv
    simp only [if_pos]
    exact foldl_processEnvLine_preserves lines e k h
  · intro e line h
    unfold processEnvLine
    dsimp only
    split_ifs <;> simp_all
  · intro lines e
    rfl

/-- Witness for C9: a nonempty `DISCORD_TOKEN` survives `loadEnv`, and a
comment line is a no-op. -/
theorem loadEnv_preserves_nonempty_witness :
    envTruthy ([("DISCORD_TOKEN", "abc")] : EnvMap) "DISCORD_TOKEN" = true
  ∧ envGet (loadEnv true ["DISCORD_TOKEN=other"] [("DISCORD_TOKEN", "abc")]) "DISCORD_TOKEN"
      = envGet ([("DISCORD_TOKEN", "abc")] : EnvMap) "DISCORD_TOKEN"
  ∧ processEnvLine ([("A", "1")] : EnvMap) "# comment" = [("A", "1")] := by
  refine ⟨by decide, ?_, ?_⟩
  · exact loadEnv_preserves_nonempty.1 ["DISCORD_TOKEN=other"] [("DISCORD_TOKEN", "abc")]
      "DISCORD_TOKEN" (by decide)
  · exact loadEnv_preserves_nonempty.2.1 [("A", "1")] "# comment"
      (Or.inr (Or.inl (by decide)))

/-- C10: a message from a bot author, or one that neither appears in the
mentions collection nor matches the mention pattern, makes the handler
return `BotAction.noReply` — no reply and no store write. -/
theorem mention_gate_silent (authorBot mentionsHas patternMatches : Bool)
    (parts : List String) (tok db : String)
    (h : authorBot = true ∨ (mentionsHas = false ∧ patternMatches = false)) :
    handleMessage authorBot mentionsHas patternMatches parts tok db = .noReply := by
  rcases h with h | ⟨h1, h2⟩ <;> simp [handleMessage, *]

/-- Witness for C10: a bot-authored message is ignored. -/
theorem mention_gate_silent_witness :
    handleMessage true true true ["x"] "t" "d" = .noReply :=
  mention_gate_silent true true true ["x"] "t" "d" (Or.inl rfl)
